import Mathlib

/-!
Shallow embedding of the vectorcache-js SDK (src/errors.ts, src/client.ts)
and proofs about its error classifier and request dispatcher.

JavaScript values exchanged as JSON bodies are modelled by `JsonVal`;
JavaScript's number type, where it can hold NaN, is modelled by `JsNumber`.
Absent / `undefined` fields are modelled by `Option`.  The short-circuit
`a || b` operator is modelled by the `jsOr*` family, which treats the
JavaScript falsy values relevant here (`undefined`/`null`, the empty
string, the number 0) as false.
-/

namespace Vectorcache

/-- A JSON value, as produced by `JSON.parse` on a response body. -/
inductive JsonVal where
  | null
  | bool (b : Bool)
  | num (n : Int)
  | str (s : String)
  | arr (xs : List JsonVal)
  | obj (fields : List (String × JsonVal))

/-- A JavaScript number: either a proper integer or NaN
(fractional values do not arise in the code paths modelled here). -/
inductive JsNumber where
  | nan
  | int (n : Int)
deriving DecidableEq, Repr

/-- JavaScript truthiness of a `JsonVal`. -/
def JsonVal.truthy : JsonVal → Bool
  | .null => false
  | .bool b => b
  | .num n => n ≠ 0
  | .str s => s ≠ ""
  | .arr _ => true
  | .obj _ => true

/-- Truthiness of a possibly-`undefined` value (optional chaining result). -/
def truthyOpt : Option JsonVal → Bool
  | some v => v.truthy
  | none => false

/-- Optional-chaining field access `body?.key` on a possibly-undefined value. -/
def getField (body : Option JsonVal) (key : String) : Option JsonVal :=
  match body with
  | some (.obj fields) => fields.lookup key
  | _ => none

/-- JavaScript `a || b` where `a` may be `undefined` and `b` is a value. -/
def jsOrVal (a : Option JsonVal) (b : JsonVal) : JsonVal :=
  match a with
  | some v => if v.truthy then v else b
  | none => b

/-- JavaScript `a || b` on string-or-`undefined` operands
(the empty string is falsy). -/
def jsOrOS (a : Option String) (b : Option String) : Option String :=
  match a with
  | some s => if s = "" then b else some s
  | none => b

/-- JavaScript `a || b` where `a` is a number-or-`undefined` and `b` a number
(0 is falsy). -/
def jsOrNat (a : Option Nat) (b : Nat) : Nat :=
  match a with
  | some n => if n = 0 then b else n
  | none => b

/-- src/errors.ts line 79: the message resolution chain
`responseBody?.message || responseBody?.detail || statusText || 'Unknown error'`. -/
def resolveMessage (responseBody : Option JsonVal) (statusText : String) : JsonVal :=
  jsOrVal (getField responseBody "message")
    (jsOrVal (getField responseBody "detail")
      (jsOrVal (some (.str statusText)) (.str "Unknown error")))

/-- Characters treated as whitespace by JavaScript `parseInt` when
trimming the front of its argument (the common StrWhiteSpace characters). -/
def isJsWhitespace (c : Char) : Bool :=
  c = ' ' ∨ c = '\t' ∨ c = '\n' ∨ c = '\r' ∨ c = '\x0b' ∨ c = '\x0c'

/-- Numeric value of a list of decimal digit characters. -/
def digitsToNat (ds : List Char) : Nat :=
  ds.foldl (fun a c => a * 10 + (c.toNat - 48)) 0

/-- Parse the longest leading run of decimal digits; NaN when there is none. -/
def parseDigits (cs : List Char) (negative : Bool) : JsNumber :=
  let ds := cs.takeWhile Char.isDigit
  if ds.isEmpty then .nan
  else if negative then .int (-(digitsToNat ds : Int)) else .int (digitsToNat ds)

/-- JavaScript `parseInt(s, 10)`: trim leading whitespace, accept an optional
sign, read the longest run of decimal digits; NaN if there are none. -/
def jsParseInt (s : String) : JsNumber :=
  match s.toList.dropWhile isJsWhitespace with
  | '-' :: rest => parseDigits rest true
  | '+' :: rest => parseDigits rest false
  | rest => parseDigits rest false

/-- The typed error taxonomy of src/errors.ts: one constructor per error
class.  Fields that the subclass constructors fix (status, code) are not
stored but recovered by the projections below, mirroring the `super(...)`
calls in the source. -/
inductive VCError where
  | apiError (message : JsonVal) (status : Option Nat) (code : Option String)
      (details : Option JsonVal)
  | authenticationError (message : JsonVal)
  | rateLimitError (message : JsonVal) (retryAfter : Option JsNumber)
  | validationError (message : JsonVal) (details : Option JsonVal)
  | networkError (message : JsonVal)
  | timeoutError (message : JsonVal)
  | serverError (message : JsonVal) (status : Nat)

/-- The `name` property each error class sets on itself. -/
def VCError.errorName : VCError → String
  | .apiError .. => "VectorcacheAPIError"
  | .authenticationError _ => "VectorcacheAuthenticationError"
  | .rateLimitError .. => "VectorcacheRateLimitError"
  | .validationError .. => "VectorcacheValidationError"
  | .networkError _ => "VectorcacheNetworkError"
  | .timeoutError _ => "VectorcacheTimeoutError"
  | .serverError .. => "VectorcacheServerError"

/-- The `message` field carried by every error. -/
def VCError.message : VCError → JsonVal
  | .apiError m _ _ _ => m
  | .authenticationError m => m
  | .rateLimitError m _ => m
  | .validationError m _ => m
  | .networkError m => m
  | .timeoutError m => m
  | .serverError m _ => m

/-- The `status` field, as set by each subclass constructor via `super`. -/
def VCError.status : VCError → Option Nat
  | .apiError _ s _ _ => s
  | .authenticationError _ => some 401
  | .rateLimitError _ _ => some 429
  | .validationError _ _ => some 400
  | .networkError _ => none
  | .timeoutError _ => some 408
  | .serverError _ s => some s

/-- The `code` field, as set by each subclass constructor via `super`. -/
def VCError.code : VCError → Option String
  | .apiError _ _ c _ => c
  | .authenticationError _ => some "AUTHENTICATION_ERROR"
  | .rateLimitError _ _ => some "RATE_LIMIT_ERROR"
  | .validationError _ _ => some "VALIDATION_ERROR"
  | .networkError _ => some "NETWORK_ERROR"
  | .timeoutError _ => some "TIMEOUT_ERROR"
  | .serverError _ _ => some "SERVER_ERROR"

/-- Whether an error is an instance of `VectorcacheValidationError`. -/
def VCError.isValidationClass : VCError → Bool
  | .validationError .. => true
  | _ => false

/-- src/errors.ts line 90-94: `retryAfter ? parseInt(retryAfter, 10) : undefined`
where `retryAfter = response.headers.get('Retry-After')` (null when the
header is missing, and the empty string is falsy). -/
def retryAfterValue (header : Option String) : Option JsNumber :=
  match header with
  | some s => if s = "" then none else some (jsParseInt s)
  | none => none

/-- src/errors.ts `createErrorFromResponse`: the status-code switch.  The
`Response` argument is represented by the pieces the function reads from it:
`status`, `statusText` and the `Retry-After` header value. -/
def createErrorFromResponse (status : Nat) (statusText : String)
    (responseBody : Option JsonVal) (retryAfterHeader : Option String) : VCError :=
  let message := resolveMessage responseBody statusText
  if status = 400 then .validationError message responseBody
  else if status = 401 ∨ status = 403 then .authenticationError message
  else if status = 408 then .timeoutError message
  else if status = 429 then .rateLimitError message (retryAfterValue retryAfterHeader)
  else if status = 500 ∨ status = 502 ∨ status = 503 ∨ status = 504 then
    .serverError message status
  else .apiError message (some status) (some "API_ERROR") responseBody

/-- Log verbosity levels (src/types.ts `LogLevel`). -/
inductive LogLevel where
  | debug
  | info
  | warn
  | error
  | quiet
deriving DecidableEq, Repr

/-- src/types.ts `VectorcacheConfig` (plus the `logLevel` extension the
constructor accepts); every field the constructor may find absent is an
`Option`. -/
structure VectorcacheConfig where
  apiKey : Option String
  baseUrl : Option String := none
  projectId : Option String := none
  timeout : Option Nat := none
  logLevel : Option LogLevel := none

/-- src/types.ts `RequestOptions`: per-call overrides. -/
structure RequestOptions where
  projectId : Option String := none
  timeout : Option Nat := none

/-- The private fields of `VectorcacheClient` after construction. -/
structure VectorcacheClient where
  apiKey : String
  baseUrl : String
  defaultProjectId : Option String
  timeout : Nat
  logLevel : LogLevel

/-- src/client.ts constructor: `if (!config.apiKey) throw new Error(...)`,
then each field falls back to its default with `||` (for `logLevel`, no
enumerated level is falsy, so the fallback fires exactly when the field is
absent). -/
def mkClient (config : VectorcacheConfig) : Except String VectorcacheClient :=
  match config.apiKey with
  | none => .error "API key is required"
  | some key =>
    if key = "" then .error "API key is required"
    else .ok
      { apiKey := key
        baseUrl := (jsOrOS config.baseUrl (some "https://api.vectorcache.com")).getD ""
        defaultProjectId := config.projectId
        timeout := jsOrNat config.timeout 30000
        logLevel := config.logLevel.getD .warn }

/-- Decimal value 0-15 rendered as an uppercase hexadecimal digit. -/
def hexDigitChar (n : Nat) : Char :=
  if n < 10 then Char.ofNat (48 + n) else Char.ofNat (55 + n)

/-- UTF-8 encoding of a single character, as a list of byte values. -/
def utf8Bytes (c : Char) : List Nat :=
  let n := c.toNat
  if n < 0x80 then [n]
  else if n < 0x800 then [0xC0 + n / 0x40, 0x80 + n % 0x40]
  else if n < 0x10000 then
    [0xE0 + n / 0x1000, 0x80 + (n / 0x40) % 0x40, 0x80 + n % 0x40]
  else
    [0xF0 + n / 0x40000, 0x80 + (n / 0x1000) % 0x40, 0x80 + (n / 0x40) % 0x40,
      0x80 + n % 0x40]

/-- Characters `encodeURIComponent` leaves unescaped. -/
def isURIUnescaped (c : Char) : Bool :=
  c.isAlpha ∨ c.isDigit ∨ c = '-' ∨ c = '_' ∨ c = '.' ∨ c = '!' ∨ c = '~' ∨
    c = '*' ∨ c.toNat = 39 ∨ c = '(' ∨ c = ')'

/-- JavaScript `encodeURIComponent`: percent-encode every character outside
the unescaped set as its UTF-8 bytes in uppercase hexadecimal. -/
def encodeURIComponent (s : String) : String :=
  String.join (s.toList.map (fun c =>
    if isURIUnescaped c then String.singleton c
    else String.join ((utf8Bytes c).map (fun b =>
      "%" ++ String.singleton (hexDigitChar (b / 16)) ++
        String.singleton (hexDigitChar (b % 16))))))

/-- The outbound HTTP exchange a client method hands to `makeRequest`:
method, path relative to the base URL, and the JSON body if any. -/
structure RequestSpec where
  method : String
  path : String
  body : Option JsonVal := none

/-- The error thrown by `getCacheStats` / `findSimilarQueries` when no
project id resolves: `new VectorcacheAPIError('Project ID is required')`
(message only; status, code and details stay undefined). -/
def projectIdRequiredError : VCError :=
  .apiError (.str "Project ID is required") none none none

/-- The resolution chain `projectId || options?.projectId || this.defaultProjectId`
shared by `getCacheStats` and `findSimilarQueries`. -/
def resolveProjectId (client : VectorcacheClient) (explicitId : Option String)
    (options : Option RequestOptions) : Option String :=
  jsOrOS explicitId (jsOrOS (options.bind (·.projectId)) client.defaultProjectId)

/-- src/client.ts `getCacheStats` up to its call of `makeRequest`: resolve the
project id, throw if it is falsy, otherwise produce the GET request that
would be dispatched. -/
def getCacheStatsRequest (client : VectorcacheClient) (projectId : Option String)
    (options : Option RequestOptions) : Except VCError RequestSpec :=
  match resolveProjectId client projectId options with
  | none => .error projectIdRequiredError
  | some id =>
    if id = "" then .error projectIdRequiredError
    else .ok { method := "GET", path := "/v1/cache/projects/" ++ id ++ "/stats" }

/-- src/client.ts `findSimilarQueries` up to its call of `makeRequest`: same
project-id resolution, then a GET with the percent-encoded query parameter. -/
def findSimilarQueriesRequest (client : VectorcacheClient) (query : String)
    (projectId : Option String) (options : Option RequestOptions) :
    Except VCError RequestSpec :=
  match resolveProjectId client projectId options with
  | none => .error projectIdRequiredError
  | some id =>
    if id = "" then .error projectIdRequiredError
    else .ok { method := "GET",
               path := "/v1/cache/projects/" ++ id ++ "/similar?query=" ++
                 encodeURIComponent query }

/-- src/client.ts line 140: `options?.timeout || this.timeout`. -/
def resolveTimeout (client : VectorcacheClient) (options : Option RequestOptions) : Nat :=
  jsOrNat (options.bind (·.timeout)) client.timeout

/-- src/client.ts lines 169-176: read the body as text, then
`responseBody = responseText ? JSON.parse(responseText) : {}` with the
catch clause `responseBody = { message: responseText }`.  `JSON.parse` is
abstracted as a parameter returning `none` where it would throw. -/
def parseResponseBody (jsonParse : String → Option JsonVal) (responseText : String) :
    JsonVal :=
  if responseText = "" then .obj []
  else
    match jsonParse responseText with
    | some v => v
    | none => .obj [("message", .str responseText)]

/-- A value caught by the `catch` block of `makeRequest`: an already-typed
SDK error, a JavaScript `Error` (with its `name` and `message`), or a thrown
non-`Error` value. -/
inductive CaughtValue where
  | typedErr (e : VCError)
  | jsError (name : String) (message : String)
  | nonError

/-- src/client.ts lines 190-205: the `catch` block.  An
`instanceof VectorcacheAPIError` value is rethrown unchanged; an `Error`
named `AbortError` becomes a timeout error reporting the resolved timeout;
any other `Error` is wrapped as a network error carrying its message; a
non-`Error` value becomes the generic unknown error. -/
def handleCaughtError (timeout : Nat) : CaughtValue → VCError
  | .typedErr e => e
  | .jsError name msg =>
    if name = "AbortError" then
      .timeoutError (.str ("Request timeout after " ++ toString timeout ++ "ms"))
    else
      .networkError (.str ("Network error: " ++ msg))
  | .nonError => .apiError (.str "Unknown error occurred") none none none

/-- What a single `fetch` attempt does: deliver a response (the pieces the
code reads from it), or throw a JavaScript `Error` (an abort shows up as an
`Error` named `AbortError`), or throw a non-`Error` value. -/
inductive FetchOutcome where
  | response (status : Nat) (statusText : String) (bodyText : String)
      (retryAfterHeader : Option String)
  | thrown (name : String) (message : String)
  | thrownNonError

/-- Fetch's `response.ok`: status in the 2xx range. -/
def responseOk (status : Nat) : Bool :=
  200 ≤ status ∧ status ≤ 299

/-- src/client.ts `makeRequest`, with the single `fetch` attempt represented
by its outcome.  On a response: parse the body, return it for 2xx, otherwise
throw `createErrorFromResponse` — which the catch block rethrows unchanged.
On a thrown value: the catch block classifies it. -/
def makeRequest (jsonParse : String → Option JsonVal) (client : VectorcacheClient)
    (options : Option RequestOptions) (outcome : FetchOutcome) :
    Except VCError JsonVal :=
  let timeout := resolveTimeout client options
  match outcome with
  | .response status statusText bodyText retryAfterHeader =>
    let responseBody := parseResponseBody jsonParse bodyText
    if responseOk status then .ok responseBody
    else .error (handleCaughtError timeout
      (.typedErr (createErrorFromResponse status statusText (some responseBody)
        retryAfterHeader)))
  | .thrown name msg => .error (handleCaughtError timeout (.jsError name msg))
  | .thrownNonError => .error (handleCaughtError timeout .nonError)

/-- A concrete client, as built by the constructor from a configuration that
supplies only the credential: every optional field holds its default. -/
def clientNoDefault : VectorcacheClient :=
  { apiKey := "test-key", baseUrl := "https://api.vectorcache.com",
    defaultProjectId := none, timeout := 30000, logLevel := .warn }

/-- The same client with a configured default project identifier. -/
def clientWithDefault : VectorcacheClient :=
  { clientNoDefault with defaultProjectId := some "proj-1" }

/-- JavaScript `a || b` keeps a truthy left operand. -/
theorem jsOrVal_of_truthy {v : JsonVal} (b : JsonVal) (h : v.truthy = true) :
    jsOrVal (some v) b = v := by
  simp [jsOrVal, h]

/-- JavaScript `a || b` falls through to `b` when `a` is falsy or absent. -/
theorem jsOrVal_of_falsy {a : Option JsonVal} (b : JsonVal)
    (h : truthyOpt a = false) : jsOrVal a b = b := by
  cases a with
  | none => rfl
  | some v =>
    simp [truthyOpt] at h
    simp [jsOrVal, h]

/-- Claim C1: the error classifier is total on non-2xx status codes and follows
the fixed table — 400 yields Validation carrying the parsed body as details;
401 and 403 yield Authentication; 408 yields Timeout; 429 yields RateLimit;
500, 502, 503 and 504 yield Server carrying the status; every other non-2xx
status yields the generic API error carrying the status, the code
`API_ERROR` and the body as details.  Being a Lean function, the classifier
maps every such status to exactly one variant, with no raw-rethrow path. -/
theorem claim_C1_thm (status : Nat) (statusText : String)
    (body : Option JsonVal) (retryAfterHeader : Option String)
    (hnon2xx : status < 200 ∨ 300 ≤ status) :
    (status = 400 → createErrorFromResponse status statusText body retryAfterHeader =
      .validationError (resolveMessage body statusText) body) ∧
    ((status = 401 ∨ status = 403) →
      createErrorFromResponse status statusText body retryAfterHeader =
        .authenticationError (resolveMessage body statusText)) ∧
    (status = 408 → createErrorFromResponse status statusText body retryAfterHeader =
      .timeoutError (resolveMessage body statusText)) ∧
    (status = 429 → createErrorFromResponse status statusText body retryAfterHeader =
      .rateLimitError (resolveMessage body statusText) (retryAfterValue retryAfterHeader)) ∧
    ((status = 500 ∨ status = 502 ∨ status = 503 ∨ status = 504) →
      createErrorFromResponse status statusText body retryAfterHeader =
        .serverError (resolveMessage body statusText) status) ∧
    (status ∉ ([400, 401, 403, 408, 429, 500, 502, 503, 504] : List Nat) →
      createErrorFromResponse status statusText body retryAfterHeader =
        .apiError (resolveMessage body statusText) (some status) (some "API_ERROR") body) := by
  refine ⟨?_, ?_, ?_, ?_, ?_, ?_⟩ <;> intro h
  · subst h; rfl
  · rcases h with h | h <;> subst h <;> rfl
  · subst h; rfl
  · subst h; rfl
  · rcases h with h | h | h | h <;> subst h <;> rfl
  · simp only [List.mem_cons, List.not_mem_nil, or_false, not_or] at h
    obtain ⟨h1, h2, h3, h4, h5, h6, h7, h8, h9⟩ := h
    simp [createErrorFromResponse, h1, h2, h3, h4, h5, h6, h7, h8, h9]

/-- Claim C1 witness: the classifier at the representative unmapped
non-2xx status 418. -/
theorem claim_C1_witness :
    createErrorFromResponse 418 "Teapot" none none =
      .apiError (.str "Teapot") (some 418) (some "API_ERROR") none := by
  have h := (claim_C1_thm 418 "Teapot" none none (Or.inr (by norm_num))).2.2.2.2.2
    (by decide)
  exact h

/-- Claim C2 counterexample: with no explicit identifier, no per-call
override and no configured default, `getCacheStats` and `findSimilarQueries`
fail — but with the base `VectorcacheAPIError` (no status, no code), not
with a Validation-class error as the claim states. -/
theorem claim_C2_counterexample :
    getCacheStatsRequest clientNoDefault none none = .error projectIdRequiredError ∧
    findSimilarQueriesRequest clientNoDefault "capital of France?" none none =
      .error projectIdRequiredError ∧
    projectIdRequiredError.isValidationClass = false ∧
    projectIdRequiredError.code ≠ some "VALIDATION_ERROR" ∧
    projectIdRequiredError.status ≠ some 400 := by
  refine ⟨rfl, rfl, rfl, by decide, by decide⟩

/-- Claim C2 (amended): the effective project identifier of `getCacheStats`
and `findSimilarQueries` is the explicit argument, else the per-call
override, else the configured default; when none resolves, the call fails
before producing any outbound request, with the base typed API error
carrying the message `Project ID is required` (not a Validation-class
error); when a configured default exists it is the identifier used in the
outbound request path. -/
theorem claim_C2_thm (c : VectorcacheClient) (q e o d : String) (ot : Option Nat) :
    (e ≠ "" → ∀ opts,
      getCacheStatsRequest c (some e) opts =
        .ok { method := "GET", path := "/v1/cache/projects/" ++ e ++ "/stats" } ∧
      findSimilarQueriesRequest c q (some e) opts =
        .ok { method := "GET",
              path := "/v1/cache/projects/" ++ e ++ "/similar?query=" ++
                encodeURIComponent q }) ∧
    (o ≠ "" →
      getCacheStatsRequest c none (some { projectId := some o, timeout := ot }) =
        .ok { method := "GET", path := "/v1/cache/projects/" ++ o ++ "/stats" }) ∧
    (c.defaultProjectId = some d → d ≠ "" →
      getCacheStatsRequest c none none =
        .ok { method := "GET", path := "/v1/cache/projects/" ++ d ++ "/stats" } ∧
      findSimilarQueriesRequest c q none none =
        .ok { method := "GET",
              path := "/v1/cache/projects/" ++ d ++ "/similar?query=" ++
                encodeURIComponent q }) ∧
    (c.defaultProjectId = none →
      getCacheStatsRequest c none none = .error projectIdRequiredError ∧
      findSimilarQueriesRequest c q none none = .error projectIdRequiredError ∧
      projectIdRequiredError.isValidationClass = false) := by
  refine ⟨?_, ?_, ?_, ?_⟩
  · intro he opts
    constructor <;>
      simp [getCacheStatsRequest, findSimilarQueriesRequest, resolveProjectId,
        jsOrOS, he]
  · intro ho
    simp [getCacheStatsRequest, resolveProjectId, jsOrOS, ho]
  · intro hd hne
    constructor <;>
      simp [getCacheStatsRequest, findSimilarQueriesRequest, resolveProjectId,
        jsOrOS, hd, hne]
  · intro hd
    refine ⟨?_, ?_, rfl⟩ <;>
      simp [getCacheStatsRequest, findSimilarQueriesRequest, resolveProjectId,
        jsOrOS, hd, projectIdRequiredError]

/-- Claim C2 witness: a client whose configuration supplies the default
`proj-1` dispatches both reads against that identifier. -/
theorem claim_C2_witness :
    getCacheStatsRequest clientWithDefault none none =
      .ok { method := "GET", path := "/v1/cache/projects/proj-1/stats" } ∧
    findSimilarQueriesRequest clientWithDefault "capital of France?" none none =
      .ok { method := "GET",
            path := "/v1/cache/projects/proj-1/similar?query=capital%20of%20France%3F" } := by
  have h := (claim_C2_thm clientWithDefault "capital of France?" "x" "y" "proj-1"
    none).2.2.1 rfl (by decide)
  exact ⟨h.1, h.2⟩

/-- Claim C3: every failure of a dispatched operation surfaces as exactly one
typed error — an already-typed error is propagated unchanged by the catch
block, a thrown non-abort `Error` (connection failure, DNS failure) is
wrapped as a Network-class error carrying the underlying message, a non-2xx
response surfaces as exactly the classifier's error, and nothing is
swallowed: the dispatch succeeds only on a 2xx response, whose parsed body
it returns. -/
theorem claim_C3_thm (p : String → Option JsonVal) (c : VectorcacheClient)
    (opts : Option RequestOptions) :
    (∀ t e, handleCaughtError t (.typedErr e) = e) ∧
    (∀ name msg, name ≠ "AbortError" →
      makeRequest p c opts (.thrown name msg) =
        .error (.networkError (.str ("Network error: " ++ msg)))) ∧
    (∀ status st bt ra, responseOk status = false →
      makeRequest p c opts (.response status st bt ra) =
        .error (createErrorFromResponse status st (some (parseResponseBody p bt)) ra)) ∧
    (∀ outcome v, makeRequest p c opts outcome = .ok v →
      ∃ status st bt ra, outcome = .response status st bt ra ∧
        responseOk status = true ∧ v = parseResponseBody p bt) := by
  refine ⟨fun t e => rfl, ?_, ?_, ?_⟩
  · intro name msg h
    simp [makeRequest, handleCaughtError, h]
  · intro status st bt ra h
    simp [makeRequest, handleCaughtError, h]
  · intro outcome v hv
    cases outcome with
    | response status st bt ra =>
      by_cases h : responseOk status = true
      · simp [makeRequest, h] at hv
        exact ⟨status, st, bt, ra, rfl, h, hv.symm⟩
      · simp [makeRequest, h] at hv
    | thrown name msg => simp [makeRequest, handleCaughtError] at hv
    | thrownNonError => simp [makeRequest, handleCaughtError] at hv

/-- Claim C3 witness: a transport-level `TypeError` surfaces as the
Network-class error carrying the underlying message. -/
theorem claim_C3_witness :
    makeRequest (fun _ => none) clientNoDefault none
        (.thrown "TypeError" "fetch failed") =
      .error (.networkError (.str "Network error: fetch failed")) := by
  have h := (claim_C3_thm (fun _ => none) clientNoDefault none).2.1 "TypeError"
    "fetch failed" (by decide)
  exact h

/-- Claim C4: a fetch failure observed as an abort signal is classified as a
Timeout-class error whose message reports the resolved timeout, never as a
Network-class error; the resolved timeout is the per-call override when
present and nonzero, else the client-level default. -/
theorem claim_C4_thm (p : String → Option JsonVal) (c : VectorcacheClient)
    (opts : Option RequestOptions) (msg : String) :
    (makeRequest p c opts (.thrown "AbortError" msg) =
      .error (.timeoutError (.str ("Request timeout after " ++
        toString (resolveTimeout c opts) ++ "ms")))) ∧
    (∀ m, makeRequest p c opts (.thrown "AbortError" msg) ≠
      .error (.networkError m)) ∧
    (∀ pid t, t ≠ 0 →
      resolveTimeout c (some { projectId := pid, timeout := some t }) = t) ∧
    (∀ pid, resolveTimeout c (some { projectId := pid, timeout := none }) =
      c.timeout) ∧
    (resolveTimeout c none = c.timeout) := by
  refine ⟨rfl, ?_, ?_, ?_, rfl⟩
  · intro m h
    simp [makeRequest, handleCaughtError] at h
  · intro pid t ht
    simp [resolveTimeout, jsOrNat, ht]
  · intro pid
    simp [resolveTimeout, jsOrNat]

/-- Claim C4 witness: with a per-call timeout of 5000 ms, the abort signal
surfaces as the Timeout-class error reporting 5000 ms. -/
theorem claim_C4_witness :
    makeRequest (fun _ => none) clientNoDefault
        (some { projectId := none, timeout := some 5000 })
        (.thrown "AbortError" "The operation was aborted") =
      .error (.timeoutError (.str "Request timeout after 5000ms")) ∧
    resolveTimeout clientNoDefault (some { projectId := none, timeout := some 5000 }) =
      5000 := by
  have h := claim_C4_thm (fun _ => none) clientNoDefault
    (some { projectId := none, timeout := some 5000 }) "The operation was aborted"
  exact ⟨h.1, h.2.2.1 none 5000 (by decide)⟩

/-- Claim C5 counterexample: an empty response body is not valid JSON, yet
the dispatcher does not wrap it as a single-field message object — it skips
the parse and substitutes the empty object. -/
theorem claim_C5_counterexample :
    makeRequest (fun _ => none) clientNoDefault none (.response 200 "OK" "" none) =
      .ok (.obj []) ∧
    JsonVal.obj [] ≠ .obj [("message", .str "")] := by
  refine ⟨rfl, ?_⟩
  intro h
  simp at h

/-- Claim C5 (amended): the response body is read as text; a non-empty text
on which JSON parsing fails is wrapped as the single-field object
`\x7b message: text \x7d`, an empty text becomes the empty object without a
parse attempt, and in both cases the dispatcher returns the substituted body
for a 2xx response instead of raising a parse exception. -/
theorem claim_C5_thm (p : String → Option JsonVal) (text : String) :
    (text ≠ "" → p text = none →
      parseResponseBody p text = .obj [("message", .str text)]) ∧
    (parseResponseBody p "" = .obj []) ∧
    (∀ c opts status st ra, responseOk status = true →
      makeRequest p c opts (.response status st text ra) =
        .ok (parseResponseBody p text)) := by
  refine ⟨?_, rfl, ?_⟩
  · intro h hp
    simp [parseResponseBody, h, hp]
  · intro c opts status st ra h
    simp [makeRequest, h]

/-- Claim C5 witness: an HTML error page, which no JSON parse accepts, is
wrapped as a message object and returned as the body of a 200 response. -/
theorem claim_C5_witness :
    parseResponseBody (fun _ => none) "<html>busy</html>" =
      .obj [("message", .str "<html>busy</html>")] ∧
    makeRequest (fun _ => none) clientNoDefault none
        (.response 200 "OK" "<html>busy</html>" none) =
      .ok (.obj [("message", .str "<html>busy</html>")]) := by
  have h := claim_C5_thm (fun _ => none) "<html>busy</html>"
  exact ⟨h.1 (by decide) rfl, h.2.2 clientNoDefault none 200 "OK" none rfl⟩

/-- Claim C6: construction fails (purely, with no network access modelled)
if and only if the credential is absent or the empty string; with a
non-empty credential it succeeds and every omitted optional field receives
its default — base endpoint, 30000 ms timeout and warn log verbosity. -/
theorem claim_C6_thm (config : VectorcacheConfig) :
    ((∃ err, mkClient config = .error err) ↔
      (config.apiKey = none ∨ config.apiKey = some "")) ∧
    (∀ k, config.apiKey = some k → k ≠ "" →
      ∃ c, mkClient config = .ok c ∧ c.apiKey = k ∧
        c.defaultProjectId = config.projectId ∧
        (config.baseUrl = none → c.baseUrl = "https://api.vectorcache.com") ∧
        (config.timeout = none → c.timeout = 30000) ∧
        (config.logLevel = none → c.logLevel = .warn)) := by
  constructor
  · constructor
    · rintro ⟨err, herr⟩
      rcases hk : config.apiKey with _ | k
      · exact Or.inl rfl
      · rcases hke : decide (k = "") with _ | _
        · exfalso
          have hk' : k ≠ "" := of_decide_eq_false hke
          simp [mkClient, hk, hk'] at herr
        · have hk' : k = "" := of_decide_eq_true hke
          subst hk'
          exact Or.inr rfl
    · rintro (hk | hk) <;> exact ⟨"API key is required", by simp [mkClient, hk]⟩
  · intro k hk hne
    have hok : mkClient config = .ok
        { apiKey := k
          baseUrl := (jsOrOS config.baseUrl (some "https://api.vectorcache.com")).getD ""
          defaultProjectId := config.projectId
          timeout := jsOrNat config.timeout 30000
          logLevel := config.logLevel.getD .warn } := by
      simp [mkClient, hk, hne]
    refine ⟨_, hok, rfl, rfl, ?_, ?_, ?_⟩ <;> intro h0
    · simp [h0, jsOrOS]
    · simp [h0, jsOrNat]
    · simp [h0]

/-- Claim C6 witness: an empty credential fails construction; the credential
alone succeeds with all defaults filled in. -/
theorem claim_C6_witness :
    (∃ err, mkClient { apiKey := some "" } = .error err) ∧
    (∃ c, mkClient { apiKey := some "test-key" } = .ok c ∧
      c.baseUrl = "https://api.vectorcache.com" ∧ c.timeout = 30000 ∧
      c.logLevel = .warn) := by
  constructor
  · exact (claim_C6_thm { apiKey := some "" }).1.mpr (Or.inr rfl)
  · obtain ⟨c, hok, hkey, hdef, hbase, htime, hlog⟩ :=
      (claim_C6_thm { apiKey := some "test-key" }).2 "test-key" rfl (by decide)
    exact ⟨c, hok, hbase rfl, htime rfl, hlog rfl⟩

/-- Claim C7 counterexample: a present but unparsable `Retry-After` header
does not leave the retry-after field absent as the claim states — the field
is set to NaN, the value `parseInt` returns on a digit-free string. -/
theorem claim_C7_counterexample :
    createErrorFromResponse 429 "Too Many Requests" none (some "soon") =
      .rateLimitError (.str "Too Many Requests") (some .nan) ∧
    some JsNumber.nan ≠ (none : Option JsNumber) := ⟨rfl, by decide⟩

/-- Claim C7 (amended): a 429 response yields a RateLimit error whose
retry-after field is the `Retry-After` header parsed by `parseInt` base 10
when the header is present and non-empty (header `120` gives 120), is absent
when the header is missing or empty, and is NaN — set, not absent — when the
header is present, non-empty and unparsable. -/
theorem claim_C7_thm (statusText : String) (body : Option JsonVal) (s : String) :
    (createErrorFromResponse 429 statusText body (some "120") =
      .rateLimitError (resolveMessage body statusText) (some (.int 120))) ∧
    (createErrorFromResponse 429 statusText body none =
      .rateLimitError (resolveMessage body statusText) none) ∧
    (createErrorFromResponse 429 statusText body (some "") =
      .rateLimitError (resolveMessage body statusText) none) ∧
    (s ≠ "" → createErrorFromResponse 429 statusText body (some s) =
      .rateLimitError (resolveMessage body statusText) (some (jsParseInt s))) := by
  refine ⟨rfl, rfl, rfl, ?_⟩
  intro hs
  simp [createErrorFromResponse, retryAfterValue, hs]

/-- Claim C7 witness: header `120` yields retry-after 120; the partially
numeric header `7 days` yields the integer prefix 7. -/
theorem claim_C7_witness :
    createErrorFromResponse 429 "Too Many Requests" (some (.obj [])) (some "120") =
      .rateLimitError (.str "Too Many Requests") (some (.int 120)) ∧
    createErrorFromResponse 429 "Too Many Requests" (some (.obj [])) (some "7 days") =
      .rateLimitError (.str "Too Many Requests") (some (.int 7)) := by
  have h := claim_C7_thm "Too Many Requests" (some (.obj [])) "7 days"
  exact ⟨h.1, h.2.2.2 (by decide)⟩

/-- Claim C8: for every non-2xx response, the message carried by the typed
error is resolved in order — the body's message field when it carries a
truthy value, else the body's detail field when truthy, else the status
text when non-empty, else the fixed fallback `Unknown error`. -/
theorem claim_C8_thm (status : Nat) (statusText : String) (body : Option JsonVal)
    (ra : Option String) (_hnon2xx : status < 200 ∨ 300 ≤ status) :
    ((createErrorFromResponse status statusText body ra).message =
      resolveMessage body statusText) ∧
    (∀ m, getField body "message" = some m → m.truthy = true →
      resolveMessage body statusText = m) ∧
    (truthyOpt (getField body "message") = false →
      ∀ d, getField body "detail" = some d → d.truthy = true →
        resolveMessage body statusText = d) ∧
    (truthyOpt (getField body "message") = false →
      truthyOpt (getField body "detail") = false → statusText ≠ "" →
        resolveMessage body statusText = .str statusText) ∧
    (truthyOpt (getField body "message") = false →
      truthyOpt (getField body "detail") = false → statusText = "" →
        resolveMessage body statusText = .str "Unknown error") := by
  refine ⟨?_, ?_, ?_, ?_, ?_⟩
  · simp only [createErrorFromResponse]
    split_ifs <;> rfl
  · intro m hm ht
    rw [resolveMessage, hm, jsOrVal_of_truthy _ ht]
  · intro hm d hd ht
    rw [resolveMessage, jsOrVal_of_falsy _ hm, hd, jsOrVal_of_truthy _ ht]
  · intro hm hd hst
    rw [resolveMessage, jsOrVal_of_falsy _ hm, jsOrVal_of_falsy _ hd,
      jsOrVal_of_truthy]
    simp [JsonVal.truthy, hst]
  · intro hm hd hst
    subst hst
    rw [resolveMessage, jsOrVal_of_falsy _ hm, jsOrVal_of_falsy _ hd]
    rfl

/-- Claim C8 witness: a 404 whose body carries only a detail field surfaces
that detail; the same status with an empty body surfaces the reason
phrase. -/
theorem claim_C8_witness :
    (createErrorFromResponse 404 "Not Found"
      (some (.obj [("detail", .str "missing")])) none).message = .str "missing" ∧
    (createErrorFromResponse 404 "Not Found" (some (.obj [])) none).message =
      .str "Not Found" := by
  have h1 := claim_C8_thm 404 "Not Found" (some (.obj [("detail", .str "missing")]))
    none (Or.inr (by norm_num))
  have h2 := claim_C8_thm 404 "Not Found" (some (.obj [])) none (Or.inr (by norm_num))
  constructor
  · rw [h1.1]
    exact h1.2.2.1 rfl (.str "missing") rfl rfl
  · rw [h2.1]
    exact h2.2.2.2.1 rfl rfl (by decide)

/-- Claim C9 counterexample: a 401 whose body carries no message does not
get the default string `Invalid or missing API key` — the resolution chain
reaches the status text first, so the message is `Unauthorized`. -/
theorem claim_C9_counterexample :
    createErrorFromResponse 401 "Unauthorized" (some (.obj [])) none =
      .authenticationError (.str "Unauthorized") ∧
    JsonVal.str "Unauthorized" ≠ .str "Invalid or missing API key" := by
  refine ⟨rfl, ?_⟩
  intro h
  simp at h

/-- Claim C9 (amended): for a 401 or 403 response whose body carries no
truthy message or detail field, the classifier returns an Authentication
error whose message is the status text when non-empty and `Unknown error`
otherwise; the constructor default `Invalid or missing API key` is never
produced by the classifier, whose resolved message argument is always
present. -/
theorem claim_C9_thm (statusText : String) (body : Option JsonVal)
    (ra : Option String)
    (hm : truthyOpt (getField body "message") = false)
    (hd : truthyOpt (getField body "detail") = false) :
    createErrorFromResponse 401 statusText body ra =
      .authenticationError
        (.str (if statusText = "" then "Unknown error" else statusText)) ∧
    createErrorFromResponse 403 statusText body ra =
      .authenticationError
        (.str (if statusText = "" then "Unknown error" else statusText)) := by
  have hmsg : resolveMessage body statusText =
      .str (if statusText = "" then "Unknown error" else statusText) := by
    rw [resolveMessage, jsOrVal_of_falsy _ hm, jsOrVal_of_falsy _ hd]
    by_cases hs : statusText = ""
    · simp [jsOrVal, JsonVal.truthy, hs]
    · simp [jsOrVal, JsonVal.truthy, hs]
  constructor <;> simp [createErrorFromResponse, hmsg]

/-- Claim C9 witness: the amended behaviour at a 401 with a reason phrase
and at a 403 with an empty one. -/
theorem claim_C9_witness :
    createErrorFromResponse 401 "Forbidden origin" (some (.obj [])) none =
      .authenticationError (.str "Forbidden origin") ∧
    createErrorFromResponse 403 "" none none =
      .authenticationError (.str "Unknown error") := by
  have h1 := claim_C9_thm "Forbidden origin" (some (.obj [])) none rfl rfl
  have h2 := claim_C9_thm "" none none rfl rfl
  exact ⟨h1.1, h2.2⟩

/-- Claim C10: an empty-string explicit project identifier is treated as
absent by `getCacheStats` and `findSimilarQueries` — resolution falls
through to the per-call override and then the configured default, the
empty string is never the effective identifier of a dispatched request, and
with no fallback available the call fails exactly as if no identifier had
been supplied. -/
theorem claim_C10_thm (c : VectorcacheClient) (q : String)
    (opts : Option RequestOptions) :
    (getCacheStatsRequest c (some "") opts = getCacheStatsRequest c none opts) ∧
    (findSimilarQueriesRequest c q (some "") opts =
      findSimilarQueriesRequest c q none opts) ∧
    (∀ r, getCacheStatsRequest c (some "") opts = .ok r →
      ∃ id, id ≠ "" ∧ resolveProjectId c none opts = some id ∧
        r.path = "/v1/cache/projects/" ++ id ++ "/stats") ∧
    ((opts.bind (·.projectId) = none ∨ opts.bind (·.projectId) = some "") →
      c.defaultProjectId = none →
      getCacheStatsRequest c (some "") opts = .error projectIdRequiredError ∧
      findSimilarQueriesRequest c q (some "") opts = .error projectIdRequiredError) := by
  have hres : resolveProjectId c (some "") opts = resolveProjectId c none opts := by
    simp [resolveProjectId, jsOrOS]
  refine ⟨?_, ?_, ?_, ?_⟩
  · simp [getCacheStatsRequest, hres]
  · simp [findSimilarQueriesRequest, hres]
  · intro r hr
    rw [getCacheStatsRequest, hres] at hr
    rcases hid : resolveProjectId c none opts with _ | id
    · rw [hid] at hr; simp at hr
    · rw [hid] at hr
      rcases hide : decide (id = "") with _ | _
      · have hne : id ≠ "" := of_decide_eq_false hide
        refine ⟨id, hne, rfl, ?_⟩
        simp [hne] at hr
        simp [← hr]
      · have : id = "" := of_decide_eq_true hide
        subst this
        simp at hr
  · intro hopts hdef
    rcases hopts with h | h <;>
      constructor <;>
        simp [getCacheStatsRequest, findSimilarQueriesRequest, resolveProjectId,
          jsOrOS, h, hdef]

/-- Claim C10 witness: with no override and no default, the empty-string
explicit identifier fails exactly like the absent one. -/
theorem claim_C10_witness :
    getCacheStatsRequest clientNoDefault (some "") none = .error projectIdRequiredError ∧
    findSimilarQueriesRequest clientNoDefault "q" (some "") none =
      .error projectIdRequiredError ∧
    getCacheStatsRequest clientNoDefault (some "") none =
      getCacheStatsRequest clientNoDefault none none := by
  have h := claim_C10_thm clientNoDefault "q" none
  exact ⟨(h.2.2.2 (Or.inl rfl) rfl).1, (h.2.2.2 (Or.inl rfl) rfl).2, h.1⟩

end Vectorcache
